import Mathlib

/-!
# Verification of the coachAI adaptive processing pipeline

Shallow embedding, in Lean 4, of the tier-selection / fallback router, the
lightweight pose-based form analyzer, the feedback generator, the adaptive
recommendation system and the device-capability detector of the coachAI
repository, together with theorems settling the specification claims about
them.

Numeric computations that the TypeScript source performs on IEEE doubles are
embedded over `ℚ`; all the properties proved here concern clamped linear
formulas, comparisons and rounding, for which the rational embedding is
exact.  Wall-clock measurements (`Date.now()` differences) are outside the
model: the `processingTime` field is fixed to `0`, which no claim inspects.
Transcendental geometry helpers (`Math.atan2`, `Math.acos` inside
`calculateJointAngle`) are modelled by taking the resulting angle, a single
rational number, as the function's input parameter.
-/

namespace CoachAI

/-- Analysis tiers, from `src/types/models.ts`. -/
inductive AnalysisTier
  | basic
  | lightweight_ml
  | full_ml
  | cloud
deriving DecidableEq, Repr

/-- Device performance tiers, from `src/types/models.ts`. -/
inductive DeviceTier
  | low
  | mid
  | high
deriving DecidableEq, Repr

/-- Network connection types, from `AdaptiveProcessingRouter.ts`. -/
inductive ConnectionType
  | wifi
  | cellular
  | offline   -- the source's string literal is the word for no connection
deriving DecidableEq, Repr

/-- `DeviceCapabilities` record, from `src/types/models.ts`. -/
structure DeviceCapabilities where
  tier : DeviceTier
  availableRAM : Nat
  cpuCores : Nat
  hasGPU : Bool
  mlFrameworkSupported : Bool
  benchmarkScore : Nat
deriving DecidableEq, Repr

/-- `ConnectivityStatus`, from `AdaptiveProcessingRouter.ts`. -/
structure ConnectivityStatus where
  isConnected : Bool
  connectionType : ConnectionType
  isMetered : Bool
deriving DecidableEq, Repr

/-- User consent record, from `ProcessingConfig` in `src/types/models.ts`. -/
structure UserConsent where
  cloudProcessing : Bool
  dataSharing : Bool
deriving DecidableEq, Repr

/-- `ProcessingConfig`, from `src/types/models.ts`. -/
structure ProcessingConfig where
  selectedTier : AnalysisTier
  deviceCapabilities : DeviceCapabilities
  hasConnectivity : Bool
  userConsent : UserConsent
deriving DecidableEq, Repr

/-- `selectProcessingTier`, `AdaptiveProcessingRouter.ts` lines 58-89:
first-match cascade cloud / full_ml / lightweight_ml / basic. -/
def selectProcessingTier (capabilities : DeviceCapabilities)
    (connectivity : ConnectivityStatus) (userConsent : UserConsent) :
    AnalysisTier :=
  if connectivity.isConnected ∧ userConsent.cloudProcessing ∧
      connectivity.connectionType = ConnectionType.wifi ∧
      ¬connectivity.isMetered then
    AnalysisTier.cloud
  else if capabilities.tier = DeviceTier.high ∧
      capabilities.mlFrameworkSupported then
    AnalysisTier.full_ml
  else if capabilities.tier = DeviceTier.mid ∧
      capabilities.mlFrameworkSupported then
    AnalysisTier.lightweight_ml
  else
    AnalysisTier.basic

/-- `getFallbackTier`, `AdaptiveProcessingRouter.ts` lines 176-185. -/
def getFallbackTier : AnalysisTier → Option AnalysisTier
  | AnalysisTier.cloud => some AnalysisTier.full_ml
  | AnalysisTier.full_ml => some AnalysisTier.lightweight_ml
  | AnalysisTier.lightweight_ml => some AnalysisTier.basic
  | AnalysisTier.basic => none

/-- `validateProcessingTier`, `AdaptiveProcessingRouter.ts` lines 236-252. -/
def validateProcessingTier (tier : AnalysisTier) (config : ProcessingConfig) :
    Bool :=
  match tier with
  | AnalysisTier.cloud =>
      config.hasConnectivity && config.userConsent.cloudProcessing
  | AnalysisTier.full_ml => config.deviceCapabilities.mlFrameworkSupported
  | AnalysisTier.lightweight_ml =>
      config.deviceCapabilities.mlFrameworkSupported
  | AnalysisTier.basic => true

/-- `getRecommendedTier`, `AdaptiveProcessingRouter.ts` lines 257-269. -/
def getRecommendedTier (config : ProcessingConfig) : AnalysisTier :=
  selectProcessingTier config.deviceCapabilities
    { isConnected := config.hasConnectivity
      connectionType :=
        if config.hasConnectivity then ConnectionType.wifi
        else ConnectionType.offline
      isMetered := false }
    config.userConsent

/-- `updateConfigForConnectivity`, `AdaptiveProcessingRouter.ts`
lines 216-231. -/
def updateConfigForConnectivity (config : ProcessingConfig)
    (connectivity : ConnectivityStatus) : ProcessingConfig :=
  { config with
      selectedTier :=
        selectProcessingTier config.deviceCapabilities connectivity
          config.userConsent
      hasConnectivity := connectivity.isConnected }

/-- Number of applications of `getFallbackTier`, chained through `Option`. -/
def fallbackIter : Nat → AnalysisTier → Option AnalysisTier
  | 0, t => some t
  | n + 1, t => (getFallbackTier t).bind (fallbackIter n)

/-- Error value propagated out of `routeVideoAnalysis`.  `raw e` models an
exception `e` escaping uncaught (the last-resort basic attempt at line 155 is
outside any try block); `wrapped e` models
`new Error('Video analysis failed: ' + e)` thrown at line 169, which derives
from the error `e` caught by the outer catch. -/
inductive RouteError (ε : Type) where
  | raw (e : ε)
  | wrapped (e : ε)
deriving DecidableEq, Repr

/-- `ProcessingResult`, `AdaptiveProcessingRouter.ts` lines 22-27.
`processingTime` is a wall-clock measurement; the embedding fixes it to 0. -/
structure ProcessingResult (T : Type) where
  data : T
  tier : AnalysisTier
  processingTime : Nat
  fallbackUsed : Bool
deriving DecidableEq, Repr

/-- The tier actually attempted first by `routeVideoAnalysis`: the source's
`currentTier` variable after the validation step at lines 101-109 of
`AdaptiveProcessingRouter.ts` (the configured tier when it validates,
otherwise the tier recomputed from current config). -/
def effectiveTier (config : ProcessingConfig) : AnalysisTier :=
  if validateProcessingTier config.selectedTier config then config.selectedTier
  else getRecommendedTier config

/-- `routeVideoAnalysis`, `AdaptiveProcessingRouter.ts` lines 95-171.
The async strategy call is embedded as `analysisFunction : String →
AnalysisTier → Except ε T` (a rejected promise is `Except.error`).  Control
flow follows the source: validate-and-reselect (`effectiveTier`; the
`!(validateProcessingTier ...)` below is the `fallbackUsed` flag the source
sets there), primary attempt, fallback attempt from `getFallbackTier`, one
last-resort basic attempt (uncaught, line 155) when the fallback tier was not
already basic, and otherwise a throw wrapping the error caught by the outer
catch (line 169; source comment: throw the original error).  The per-tier
soft time budget at lines 117-121 only logs a warning and does not alter the
result, so it has no counterpart in the embedding. -/
def routeVideoAnalysis {ε T : Type} (videoPath : String)
    (config : ProcessingConfig)
    (analysisFunction : String → AnalysisTier → Except ε T) :
    Except (RouteError ε) (ProcessingResult T) :=
  match analysisFunction videoPath (effectiveTier config) with
  | Except.ok data =>
      Except.ok
        { data := data, tier := effectiveTier config, processingTime := 0,
          fallbackUsed := !(validateProcessingTier config.selectedTier config) }
  | Except.error err =>
      match getFallbackTier (effectiveTier config) with
      | some fallbackTier =>
          match analysisFunction videoPath fallbackTier with
          | Except.ok data =>
              Except.ok
                { data := data, tier := fallbackTier, processingTime := 0,
                  fallbackUsed := true }
          | Except.error _fallbackError =>
              if fallbackTier ≠ AnalysisTier.basic then
                match analysisFunction videoPath AnalysisTier.basic with
                | Except.ok data =>
                    Except.ok
                      { data := data, tier := AnalysisTier.basic,
                        processingTime := 0, fallbackUsed := true }
                | Except.error lastError => Except.error (RouteError.raw lastError)
              else
                Except.error (RouteError.wrapped err)
      | none => Except.error (RouteError.wrapped err)

/-- The error `routeVideoAnalysis` propagates when the strategy fails at
every tier, as a function of the first attempted tier and of the per-tier
errors. -/
def exhaustedError {ε : Type} (t : AnalysisTier) (err : AnalysisTier → ε) :
    RouteError ε :=
  match getFallbackTier t with
  | none => RouteError.wrapped (err t)
  | some fallbackTier =>
      if fallbackTier = AnalysisTier.basic then RouteError.wrapped (err t)
      else RouteError.raw (err AnalysisTier.basic)

/-- Letter grades, `FormScore` in `src/types/models.ts`. -/
inductive FormScore
  | A
  | B
  | C
  | D
  | F
deriving DecidableEq, Repr

/-- `FormIssueType`, `src/types/models.ts`. -/
inductive FormIssueType
  | elbow_flare
  | wrist_angle
  | stance
  | follow_through
deriving DecidableEq, Repr

/-- `FormIssueSeverity`, `src/types/models.ts`. -/
inductive FormIssueSeverity
  | major
  | moderate
  | minor
deriving DecidableEq, Repr

/-- `FormIssue`, `src/types/models.ts`. -/
structure FormIssue where
  type : FormIssueType
  severity : FormIssueSeverity
  description : String
  recommendedDrills : List String
deriving DecidableEq, Repr

/-- `BiomechanicalMetrics`, `src/types/models.ts`; the four metric fields are
the integers produced by `Math.round`. -/
structure BiomechanicalMetrics where
  elbowAlignment : Int
  wristAngle : Int
  shoulderSquare : Int
  followThrough : Int
deriving DecidableEq, Repr

/-- `BiomechanicalAnalysis`, `LightweightFormAnalyzer.ts` lines 37-44. -/
structure BiomechanicalAnalysis where
  elbowAlignment : ℚ
  wristAngle : ℚ
  shoulderSquare : ℚ
  followThrough : ℚ
  releaseHeight : ℚ
  bodyBalance : ℚ
deriving DecidableEq, Repr

/-- JavaScript `Math.round` on the nonnegative rationals this code produces:
round half up, i.e. the floor of `q + 1/2`. -/
def jsRound (q : ℚ) : ℤ := ⌊q + 1 / 2⌋

/-- `calculateElbowAlignment`, `LightweightFormAnalyzer.ts` lines 201-220.
The elbow joint angle (the source computes it from the three keypoints with
the transcendental `calculateJointAngle`, `PoseEstimationEngine.ts`) is taken
as the input; the function then scores its deviation from the optimal 90°
with a linear 3.33-points-per-degree penalty, clamps at 0 and rounds. -/
def calculateElbowAlignment (angle : ℚ) : ℤ :=
  jsRound (max 0 (100 - |angle - 90| * (333 / 100)))

/-- `calculateWristAngle`, `LightweightFormAnalyzer.ts` lines 226-250.  The
angle of the elbow→wrist vector from vertical (`Math.abs(Math.atan2(dx, dy))`
in degrees, transcendental) is taken as the input `angleFromVertical`; the
deviation from the optimal 0° is penalised 5 points per degree, clamped at 0
and rounded. -/
def calculateWristAngle (angleFromVertical : ℚ) : ℤ :=
  jsRound (max 0 (100 - |angleFromVertical - 0| * 5))

/-- `calculateShoulderSquare`, `LightweightFormAnalyzer.ts` lines 256-281.
`shoulderAngle` is `none` when either shoulder keypoint is missing (default
score 50); otherwise it is the angle of the shoulder line from horizontal in
degrees (`Math.atan2(dy, dx)`, transcendental, computed by the source before
its absolute value is taken). -/
def calculateShoulderSquare (shoulderAngle : Option ℚ) : ℤ :=
  match shoulderAngle with
  | none => 50
  | some a => jsRound (max 0 (100 - |a| * 5))

/-- Arithmetic mean of a list of rationals (the source's `avgY`
accumulation, `LightweightFormAnalyzer.ts` line 304). -/
def listMean (l : List ℚ) : ℚ := l.sum / l.length

/-- Population variance of a list of rationals (the source's `variance`
accumulation, `LightweightFormAnalyzer.ts` line 305). -/
def listVariance (l : List ℚ) : ℚ :=
  (l.map (fun y => (y - listMean l) ^ 2)).sum / l.length

/-- `calculateFollowThroughQuality`, `LightweightFormAnalyzer.ts` lines
287-319.  A frame is embedded as the optional y-coordinate of its RIGHT_WRIST
keypoint (the only frame datum the function reads). -/
def calculateFollowThroughQuality (followThroughFrames : List (Option ℚ)) :
    ℤ :=
  if followThroughFrames.length = 0 then 0
  else
    let wristPositions := followThroughFrames.filterMap id
    if wristPositions.length < 2 then 50
    else
      let variance := listVariance wristPositions
      let durationScore := min 100 ((followThroughFrames.length : ℚ) / 5 * 100)
      let consistencyScore := max 0 (100 - variance * 500)
      jsRound (durationScore * (6 / 10) + consistencyScore * (4 / 10))

/-- The weighted total of `calculateFormScore`, `LightweightFormAnalyzer.ts`
lines 358-371 (weights 0.25 / 0.20 / 0.20 / 0.25 / 0.10). -/
def calculateFormScoreTotal (biomechanics : BiomechanicalAnalysis) : ℚ :=
  biomechanics.elbowAlignment * (25 / 100) +
  biomechanics.wristAngle * (20 / 100) +
  biomechanics.shoulderSquare * (20 / 100) +
  biomechanics.followThrough * (25 / 100) +
  biomechanics.bodyBalance * (10 / 100)

/-- `calculateFormScore`, `LightweightFormAnalyzer.ts` lines 356-381:
breakpoints ≥90→A, ≥80→B, ≥70→C, ≥60→D, else F. -/
def calculateFormScore (biomechanics : BiomechanicalAnalysis) : FormScore :=
  let totalScore := calculateFormScoreTotal biomechanics
  if 90 ≤ totalScore then FormScore.A
  else if 80 ≤ totalScore then FormScore.B
  else if 70 ≤ totalScore then FormScore.C
  else if 60 ≤ totalScore then FormScore.D
  else FormScore.F

/-- The source's `severityOrder` map (`LightweightFormAnalyzer.ts` line 477,
also `FeedbackGenerator` line 122): major 0, moderate 1, minor 2. -/
def severityRank : FormIssueSeverity → Nat
  | FormIssueSeverity.major => 0
  | FormIssueSeverity.moderate => 1
  | FormIssueSeverity.minor => 2

/-- One step of the stable ascending sort by `severityRank` that embeds the
JavaScript `issues.sort((a, b) => severityOrder[a] - severityOrder[b])`. -/
def insertBySeverity (x : FormIssue) : List FormIssue → List FormIssue
  | [] => [x]
  | y :: ys =>
      if severityRank x.severity ≤ severityRank y.severity then x :: y :: ys
      else y :: insertBySeverity x ys

/-- Stable ascending sort by `severityRank` (insertion sort), embedding the
JavaScript stable `Array.prototype.sort` with the severity comparator. -/
def sortBySeverity (l : List FormIssue) : List FormIssue :=
  l.foldr insertBySeverity []

/-- `detectFormIssuesFromPose`, `LightweightFormAnalyzer.ts` lines 386-483:
conditionally pushes at most one issue per metric (elbow, wrist, shoulder,
follow-through, in that order), sorts by severity, keeps the top 3.  The
source's second parameter `phases` is unused in its body and is omitted. -/
def detectFormIssuesFromPose (biomechanics : BiomechanicalAnalysis) :
    List FormIssue :=
  let issues : List FormIssue :=
    (if biomechanics.elbowAlignment < 60 then
      [{ type := FormIssueType.elbow_flare, severity := FormIssueSeverity.major,
         description := "Your elbow is significantly out of alignment. Focus on keeping it under the ball.",
         recommendedDrills :=
           ["Wall shooting drill - Practice form against a wall",
            "One-hand form shooting - Focus on elbow alignment",
            "Chair drill - Sit and practice shooting motion"] }]
    else if biomechanics.elbowAlignment < 75 then
      [{ type := FormIssueType.elbow_flare,
         severity := FormIssueSeverity.moderate,
         description := "Your elbow alignment needs improvement. Keep it more vertical.",
         recommendedDrills :=
           ["One-hand form shooting",
            "Mirror practice - Watch your elbow position"] }]
    else []) ++
    (if biomechanics.wristAngle < 65 then
      [{ type := FormIssueType.wrist_angle,
         severity := FormIssueSeverity.moderate,
         description := "Your wrist position at release needs work. Aim for a straighter wrist with good snap.",
         recommendedDrills :=
           ["Wrist flick drill - Practice wrist snap motion",
            "Close-range shooting - Focus on wrist follow-through",
            "Lying down shooting - Isolate wrist motion"] }]
    else if biomechanics.wristAngle < 80 then
      [{ type := FormIssueType.wrist_angle, severity := FormIssueSeverity.minor,
         description := "Minor wrist angle adjustment needed for optimal release.",
         recommendedDrills := ["Wrist flick drill"] }]
    else []) ++
    (if biomechanics.shoulderSquare < 70 then
      [{ type := FormIssueType.stance, severity := FormIssueSeverity.moderate,
         description := "Your shoulders are not square to the basket. Align your body properly.",
         recommendedDrills :=
           ["Stance and alignment drills",
            "Feet positioning practice",
            "Square-up drill before shooting"] }]
    else []) ++
    (if biomechanics.followThrough < 60 then
      [{ type := FormIssueType.follow_through,
         severity := FormIssueSeverity.major,
         description := "Your follow-through is inconsistent or too short. Hold your form longer.",
         recommendedDrills :=
           ["Freeze drill - Hold follow-through for 2 seconds",
            "Slow-motion shooting - Practice complete follow-through",
            "Goose-neck finish - Focus on wrist position"] }]
    else if biomechanics.followThrough < 75 then
      [{ type := FormIssueType.follow_through,
         severity := FormIssueSeverity.moderate,
         description := "Extend your follow-through for better consistency.",
         recommendedDrills := ["Freeze drill", "Count to 2 after release"] }]
    else [])
  (sortBySeverity issues).take 3

/-- `ShotTrajectory`, `BasicAnalysisEngine.ts` lines 19-25. -/
structure ShotTrajectory where
  releaseAngle : ℚ
  releaseHeight : ℚ
  arcHeight : ℚ
  releaseSpeed : ℚ
  followThroughDuration : ℚ
deriving DecidableEq, Repr

/-- `BodyPositioning`, `BasicAnalysisEngine.ts` lines 30-36. -/
structure BodyPositioning where
  shoulderAlignment : ℚ
  elbowAngle : ℚ
  wristAngle : ℚ
  stanceWidth : ℚ
  kneeFlexion : ℚ
deriving DecidableEq, Repr

/-- The `timing` component of `MotionAnalysisResult`,
`BasicAnalysisEngine.ts` lines 43-48. -/
structure MotionTiming where
  totalDuration : ℚ
  preparationPhase : ℚ
  releasePhase : ℚ
  followThroughPhase : ℚ
deriving DecidableEq, Repr

/-- `MotionAnalysisResult`, `BasicAnalysisEngine.ts` lines 40-49. -/
structure MotionAnalysisResult where
  trajectory : ShotTrajectory
  positioning : BodyPositioning
  timing : MotionTiming
deriving DecidableEq, Repr

/-- `calculateBiomechanicalMetrics`, `BasicAnalysisEngine.ts` lines 302-324:
continuous linear penalties clamped to [0,100], then rounded. -/
def calculateBiomechanicalMetrics (motion : MotionAnalysisResult) :
    BiomechanicalMetrics :=
  let elbowScore := max 0 (100 - |motion.positioning.elbowAngle - 90| * 5)
  let wristScore := max 0 (100 - |motion.positioning.wristAngle| * 6)
  let shoulderScore := max 0 (100 - |motion.positioning.shoulderAlignment| * 4)
  let followThroughDiff := |motion.trajectory.followThroughDuration - 350|
  let followThroughScore := max 0 (100 - followThroughDiff * (3 / 10))
  { elbowAlignment := jsRound elbowScore
    wristAngle := jsRound wristScore
    shoulderSquare := jsRound shoulderScore
    followThrough := jsRound followThroughScore }

/-- `FormAnalysisResult`, `src/types/models.ts`. -/
structure FormAnalysisResult where
  overallScore : FormScore
  detectedIssues : List FormIssue
  biomechanicalMetrics : BiomechanicalMetrics
deriving DecidableEq, Repr

/-- `FeedbackRecommendation`, `FeedbackGenerator` lines 18-24. -/
structure FeedbackRecommendation where
  priority : Nat
  issue : FormIssue
  explanation : String
  drills : List String
  whyItMatters : String
deriving DecidableEq, Repr

/-- `SessionFeedback`, `FeedbackGenerator` lines 29-35. -/
structure SessionFeedback where
  overallMessage : String
  formScore : FormScore
  recommendations : List FeedbackRecommendation
  encouragement : String
  nextSteps : List String
deriving DecidableEq, Repr

/-- `generateOverallMessage`, `FeedbackGenerator` lines 78-109. -/
def generateOverallMessage (score : FormScore) (tier : AnalysisTier) :
    String :=
  let isAdvanced := tier ≠ AnalysisTier.basic
  match score with
  | FormScore.A =>
      if isAdvanced then
        "Outstanding form! Your biomechanics show excellent alignment and consistency."
      else "Excellent form! Your shooting technique is strong."
  | FormScore.B =>
      if isAdvanced then
        "Solid form with good fundamentals. A few adjustments will take you to the next level."
      else "Good form with room for improvement."
  | FormScore.C =>
      if isAdvanced then
        "Your form shows potential but needs work in several areas. Focus on the recommendations below."
      else "Decent form, but focus on the key issues below."
  | FormScore.D =>
      if isAdvanced then
        "Significant form issues detected. Consistent practice with these drills will help build better habits."
      else "Your form needs work. Practice the recommended drills."
  | FormScore.F =>
      if isAdvanced then
        "Your shooting form needs fundamental corrections. Start with the basics and build from there."
      else "Major form issues detected. Focus on fundamentals."

/-- The advanced elaboration appended to an issue's description, keyed by
issue type × severity (`FeedbackGenerator`, the `advancedExplanations`
record). -/
def advancedElaboration (t : FormIssueType) (s : FormIssueSeverity) : String :=
  match t, s with
  | FormIssueType.elbow_flare, FormIssueSeverity.major =>
      " When your elbow flares out, it creates inconsistent release angles and reduces shooting accuracy. Proper elbow alignment ensures the ball travels in a straight line toward the basket."
  | FormIssueType.elbow_flare, FormIssueSeverity.moderate =>
      " Better elbow alignment will improve your shot consistency and make it easier to repeat your form."
  | FormIssueType.elbow_flare, FormIssueSeverity.minor =>
      " Small adjustments to elbow position can significantly improve accuracy."
  | FormIssueType.wrist_angle, FormIssueSeverity.major =>
      " Proper wrist snap generates backspin and controls the ball\x27s trajectory. Without correct wrist mechanics, your shots will lack consistency and touch."
  | FormIssueType.wrist_angle, FormIssueSeverity.moderate =>
      " Improving wrist mechanics will give you better control over shot arc and backspin."
  | FormIssueType.wrist_angle, FormIssueSeverity.minor =>
      " Fine-tuning wrist position will enhance your shooting touch."
  | FormIssueType.stance, FormIssueSeverity.major =>
      " Your base provides stability and power for your shot. Poor stance leads to balance issues and inconsistent release points."
  | FormIssueType.stance, FormIssueSeverity.moderate =>
      " Better stance alignment will improve your balance and shooting consistency."
  | FormIssueType.stance, FormIssueSeverity.minor =>
      " Small stance adjustments can improve your overall shooting rhythm."
  | FormIssueType.follow_through, FormIssueSeverity.major =>
      " Follow-through is crucial for shot consistency and accuracy. It ensures complete energy transfer and proper backspin on the ball."
  | FormIssueType.follow_through, FormIssueSeverity.moderate =>
      " Extending your follow-through will improve shot consistency and help develop muscle memory."
  | FormIssueType.follow_through, FormIssueSeverity.minor =>
      " A complete follow-through adds the finishing touch to good shooting form."

/-- `generateExplanation`, `FeedbackGenerator` lines 141-176: the basic tier
reuses the issue's own description; any other tier appends the canned
elaboration keyed by issue type × severity. -/
def generateExplanation (issue : FormIssue) (tier : AnalysisTier) : String :=
  if tier = AnalysisTier.basic then issue.description
  else issue.description ++ advancedElaboration issue.type issue.severity

/-- `generateWhyItMatters`, `FeedbackGenerator` lines 181-191. -/
def generateWhyItMatters (issueType : FormIssueType) : String :=
  match issueType with
  | FormIssueType.elbow_flare =>
      "Proper elbow alignment is the foundation of consistent shooting. It ensures the ball travels in a straight line and makes your shot repeatable."
  | FormIssueType.wrist_angle =>
      "Wrist mechanics control ball rotation and arc. Good wrist form creates the backspin needed for soft shots that drop through the net."
  | FormIssueType.stance =>
      "Your stance provides the stable base for your entire shot. Good balance allows you to shoot consistently from any position on the court."
  | FormIssueType.follow_through =>
      "Follow-through completes the shooting motion and ensures full energy transfer. It\x27s the signature of every great shooter."

/-- `generateEncouragement`, `FeedbackGenerator` lines 196-215. -/
def generateEncouragement (score : FormScore) (issueCount : Nat) : String :=
  if score = FormScore.A then
    "Keep up the excellent work! Your dedication to proper form is paying off."
  else if score = FormScore.B then
    "You\x27re on the right track! Focus on these areas and you\x27ll see great improvement."
  else if issueCount ≤ 2 then
    "You\x27re making progress! Work on these specific areas and your form will improve quickly."
  else
    "Every great shooter started where you are now. Consistent practice with these drills will build the muscle memory you need."

/-- `generateNextSteps`, `FeedbackGenerator` lines 220-245.  The JavaScript
interpolation of `drills[0]` on an empty drill list would print the string
for an undefined value, which `List.headD` reproduces. -/
def generateNextSteps (recommendations : List FeedbackRecommendation)
    (score : FormScore) : List String :=
  let drillSteps :=
    match recommendations with
    | [] => []
    | top :: rest =>
        ("Start with: " ++ top.drills.headD "undefined") ::
          (match rest with
          | [] => []
          | second :: _ => ["Then practice: " ++ second.drills.headD "undefined"])
  drillSteps ++
    (if score = FormScore.A ∨ score = FormScore.B then
      ["Record another session to track your consistency"]
    else
      ["Practice these drills for 10-15 minutes daily",
       "Record a new session in 2-3 days to check progress"])

/-- `createRecommendations`, `FeedbackGenerator` lines 114-136: sort a copy
of the issues by severity (stable), take the top `maxCount`, number them
with priorities 1..N. -/
def createRecommendations (issues : List FormIssue) (maxCount : Nat)
    (tier : AnalysisTier) : List FeedbackRecommendation :=
  let sortedIssues := sortBySeverity issues
  let topIssues := sortedIssues.take maxCount
  topIssues.enum.map (fun p =>
    { priority := p.1 + 1
      issue := p.2
      explanation := generateExplanation p.2 tier
      drills := p.2.recommendedDrills
      whyItMatters := generateWhyItMatters p.2.type })

/-- `generateFeedback`, `FeedbackGenerator` lines 42-74: 2 recommendations
max for the basic tier, 3 otherwise. -/
def generateFeedback (analysisResult : FormAnalysisResult)
    (analysisTier : AnalysisTier) : SessionFeedback :=
  let maxRecommendations := if analysisTier = AnalysisTier.basic then 2 else 3
  let overallMessage :=
    generateOverallMessage analysisResult.overallScore analysisTier
  let recommendations :=
    createRecommendations analysisResult.detectedIssues maxRecommendations
      analysisTier
  let encouragement :=
    generateEncouragement analysisResult.overallScore
      analysisResult.detectedIssues.length
  let nextSteps := generateNextSteps recommendations analysisResult.overallScore
  { overallMessage := overallMessage
    formScore := analysisResult.overallScore
    recommendations := recommendations
    encouragement := encouragement
    nextSteps := nextSteps }

/-- `ShootingSession`, `src/types/models.ts`, restricted to the fields that
the embedded recommendation functions read (`timestamp`, `formScore`,
`detectedIssues`) plus the identifying fields; `formAnalysis`,
`videoMetadata`, `duration` and `syncStatus` are never read by them and are
omitted.  The `Date` timestamp is embedded as epoch milliseconds. -/
structure ShootingSession where
  id : String
  userId : String
  timestamp : ℤ
  formScore : FormScore
  detectedIssues : List FormIssue
deriving DecidableEq, Repr

/-- The three severity trends, `AdaptiveRecommendationSystem.ts` line 24. -/
inductive SeverityTrend
  | improving
  | stable
  | worsening
deriving DecidableEq, Repr

/-- `IssueProgressPattern`, `AdaptiveRecommendationSystem.ts` lines 19-27. -/
structure IssueProgressPattern where
  issueType : FormIssueType
  firstDetected : ℤ
  lastDetected : ℤ
  occurrenceCount : Nat
  severityTrend : SeverityTrend
  averageSeverityScore : ℚ
  resolved : Bool
deriving DecidableEq, Repr

/-- `calculateSeverityScore`, `AdaptiveRecommendationSystem.ts` lines 55-62:
major 0, moderate 50, minor 75. -/
def calculateSeverityScore : FormIssueSeverity → ℚ
  | FormIssueSeverity.major => 0
  | FormIssueSeverity.moderate => 50
  | FormIssueSeverity.minor => 75

/-- The `severityScores` computed by `analyzeIssueProgress`
(`AdaptiveRecommendationSystem.ts` lines 71-84): severity score per session
containing the issue, taking the first matching issue of each session
(`find`), defaulting to 0. -/
def issueSeverityScores (issueType : FormIssueType)
    (sessions : List ShootingSession) : List ℚ :=
  (sessions.filter (fun s =>
      s.detectedIssues.any (fun i => i.type = issueType))).map
    (fun s =>
      match s.detectedIssues.find? (fun i => i.type = issueType) with
      | some issue => calculateSeverityScore issue.severity
      | none => 0)

/-- `analyzeIssueProgress`, `AdaptiveRecommendationSystem.ts` lines 67-125.
`Math.floor(n / 2)` is Nat division; `sessions.slice(-2)` is
`drop (length - 2)`.  The source indexes `sessionsWithIssue[0]` and
`[length - 1]` in the branch where the list is non-empty; the embedding
reads them through `head?`/`getLast?` with an unreachable default 0. -/
def analyzeIssueProgress (issueType : FormIssueType)
    (sessions : List ShootingSession) : Option IssueProgressPattern :=
  let sessionsWithIssue := sessions.filter (fun s =>
    s.detectedIssues.any (fun i => i.type = issueType))
  if sessionsWithIssue.length = 0 then none
  else
    let severityScores := issueSeverityScores issueType sessions
    let averageSeverityScore :=
      severityScores.sum / (severityScores.length : ℚ)
    let midpoint := severityScores.length / 2
    let firstHalfAvg :=
      (severityScores.take midpoint).sum / ((max 1 midpoint : Nat) : ℚ)
    let secondHalfAvg :=
      (severityScores.drop midpoint).sum /
        ((max 1 (severityScores.length - midpoint) : Nat) : ℚ)
    let improvement := secondHalfAvg - firstHalfAvg
    let severityTrend :=
      if improvement > 15 then SeverityTrend.improving
      else if improvement < -15 then SeverityTrend.worsening
      else SeverityTrend.stable
    let recentSessions := sessions.drop (sessions.length - 2)
    let resolved := !(recentSessions.any (fun s =>
      s.detectedIssues.any (fun i => i.type = issueType)))
    some
      { issueType := issueType
        firstDetected := ((sessionsWithIssue.head?).map
          (fun s => s.timestamp)).getD 0
        lastDetected := ((sessionsWithIssue.getLast?).map
          (fun s => s.timestamp)).getD 0
        occurrenceCount := sessionsWithIssue.length
        severityTrend := severityTrend
        averageSeverityScore := averageSeverityScore
        resolved := resolved }

/-- Modelled from the spec's trend rule (section 4.5): compare the mean
severity-score of the first half of the occurrences against the second
half; a difference (second minus first, the direction the spec's scenarios
fix) greater than +15 is improving, less than −15 worsening, else stable. -/
def trendSpec (scores : List ℚ) : SeverityTrend :=
  let midpoint := scores.length / 2
  let firstMean := (scores.take midpoint).sum / ((max 1 midpoint : Nat) : ℚ)
  let secondMean := (scores.drop midpoint).sum /
    ((max 1 (scores.length - midpoint) : Nat) : ℚ)
  if secondMean - firstMean > 15 then SeverityTrend.improving
  else if secondMean - firstMean < -15 then SeverityTrend.worsening
  else SeverityTrend.stable

/-- Four detected issues in unsorted severity order — minor, major,
moderate, major — with distinct types and descriptions (test fixture for
exercising the top-issue selection of `generateFeedback`). -/
def sampleDetectedIssues : List FormIssue :=
  [{ type := FormIssueType.elbow_flare, severity := FormIssueSeverity.minor,
     description := "a", recommendedDrills := [] },
   { type := FormIssueType.follow_through, severity := FormIssueSeverity.major,
     description := "b", recommendedDrills := [] },
   { type := FormIssueType.wrist_angle, severity := FormIssueSeverity.moderate,
     description := "c", recommendedDrills := [] },
   { type := FormIssueType.stance, severity := FormIssueSeverity.major,
     description := "d", recommendedDrills := [] }]

/-- A `FormAnalysisResult` carrying the four sample issues (test fixture). -/
def sampleAnalysisResult : FormAnalysisResult :=
  { overallScore := FormScore.C
    detectedIssues := sampleDetectedIssues
    biomechanicalMetrics :=
      { elbowAlignment := 50, wristAngle := 50, shoulderSquare := 50,
        followThrough := 50 } }

/-- A session whose only detected issue is an elbow_flare of the given
severity, at the given timestamp (test fixture for the progress scenarios). -/
def mkIssueSession (t : ℤ) (sev : FormIssueSeverity) : ShootingSession :=
  { id := "s", userId := "u", timestamp := t, formScore := FormScore.C,
    detectedIssues :=
      [{ type := FormIssueType.elbow_flare, severity := sev,
         description := "d", recommendedDrills := [] }] }

/-- The singleton `device_capabilities` database row (id = 1):
`DeviceCapabilities` plus the `last_assessed` epoch-millis column. -/
structure CachedCapabilitiesRow where
  capabilities : DeviceCapabilities
  lastAssessed : ℤ
deriving DecidableEq, Repr

/-- `sevenDaysInMs`, `DeviceCapabilityDetector` line 244. -/
def sevenDaysInMs : ℤ := 7 * 24 * 60 * 60 * 1000

/-- `loadCachedCapabilities`, `DeviceCapabilityDetector` lines 232-266:
returns the cached capabilities unless the row is absent or its age
exceeds 7 days (`cacheAge > sevenDaysInMs` → stale). -/
def loadCachedCapabilities (cache : Option CachedCapabilitiesRow)
    (now : ℤ) : Option DeviceCapabilities :=
  match cache with
  | none => none
  | some row =>
      if now - row.lastAssessed > sevenDaysInMs then none
      else some row.capabilities

/-- The outcome of the five independent environment probes of
`DeviceCapabilityDetector` (`getAvailableRAM`, `getCPUCores`,
`checkGPUAvailability`, `checkTFLiteAvailability`,
`runPerformanceBenchmark`); the embedding takes them as input. -/
structure DetectionSignals where
  availableRAM : Nat
  cpuCores : Nat
  hasGPU : Bool
  mlFrameworkSupported : Bool
  benchmarkScore : Nat
deriving DecidableEq, Repr

/-- `classifyDeviceTier`, `DeviceCapabilityDetector` lines 185-204. -/
def classifyDeviceTier (ram : Nat) (cpuCores : Nat) (benchmarkScore : Nat) :
    DeviceTier :=
  if 6144 ≤ ram ∧ 6 ≤ cpuCores ∧ 70 < benchmarkScore then DeviceTier.high
  else if 3072 ≤ ram ∧ 4 ≤ cpuCores ∧ 40 < benchmarkScore then DeviceTier.mid
  else DeviceTier.low

/-- The `DeviceCapabilities` record full detection builds from the probed
signals (`detectDeviceCapabilities` body, `DeviceCapabilityDetector`
lines 25-42). -/
def detectedCapabilities (signals : DetectionSignals) : DeviceCapabilities :=
  { tier := classifyDeviceTier signals.availableRAM signals.cpuCores
      signals.benchmarkScore
    availableRAM := signals.availableRAM
    cpuCores := signals.cpuCores
    hasGPU := signals.hasGPU
    mlFrameworkSupported := signals.mlFrameworkSupported
    benchmarkScore := signals.benchmarkScore }

/-- `detectDeviceCapabilities`, `DeviceCapabilityDetector` lines 15-47,
embedded as a pure state transition: input the current cached row (if any)
and the clock, output the returned capabilities and the cache row after the
call.  A cached return performs no write; full detection persists a fresh
row stamped `now` (`cacheDeviceCapabilities` upserts the singleton row). -/
def detectDeviceCapabilities (forceRefresh : Bool)
    (cache : Option CachedCapabilitiesRow) (now : ℤ)
    (signals : DetectionSignals) :
    DeviceCapabilities × Option CachedCapabilitiesRow :=
  if forceRefresh = false then
    match loadCachedCapabilities cache now with
    | some cached => (cached, cache)
    | none =>
        (detectedCapabilities signals,
          some { capabilities := detectedCapabilities signals,
                 lastAssessed := now })
  else
    (detectedCapabilities signals,
      some { capabilities := detectedCapabilities signals,
             lastAssessed := now })

end CoachAI

namespace CoachAI

/-- C1: `selectProcessingTier` is a pure function whose result is the first
matching rule of the cascade: cloud iff connected ∧ consent ∧ wifi ∧ not
metered; else full_ml iff high-tier ∧ ML support; else lightweight_ml iff
mid-tier ∧ ML support; else basic.  Consequently cloud is never returned
without connectivity and consent, and the ML tiers are never returned
without `mlFrameworkSupported`. -/
theorem C1_selectProcessingTier_cascade
    (caps : DeviceCapabilities) (conn : ConnectivityStatus)
    (consent : UserConsent) :
    (selectProcessingTier caps conn consent = AnalysisTier.cloud ↔
      (conn.isConnected = true ∧ consent.cloudProcessing = true ∧
        conn.connectionType = ConnectionType.wifi ∧ conn.isMetered = false)) ∧
    (selectProcessingTier caps conn consent = AnalysisTier.full_ml ↔
      (¬(conn.isConnected = true ∧ consent.cloudProcessing = true ∧
          conn.connectionType = ConnectionType.wifi ∧ conn.isMetered = false) ∧
        caps.tier = DeviceTier.high ∧ caps.mlFrameworkSupported = true)) ∧
    (selectProcessingTier caps conn consent = AnalysisTier.lightweight_ml ↔
      (¬(conn.isConnected = true ∧ consent.cloudProcessing = true ∧
          conn.connectionType = ConnectionType.wifi ∧ conn.isMetered = false) ∧
        ¬(caps.tier = DeviceTier.high ∧ caps.mlFrameworkSupported = true) ∧
        caps.tier = DeviceTier.mid ∧ caps.mlFrameworkSupported = true)) ∧
    (selectProcessingTier caps conn consent = AnalysisTier.basic ↔
      (¬(conn.isConnected = true ∧ consent.cloudProcessing = true ∧
          conn.connectionType = ConnectionType.wifi ∧ conn.isMetered = false) ∧
        ¬(caps.tier = DeviceTier.high ∧ caps.mlFrameworkSupported = true) ∧
        ¬(caps.tier = DeviceTier.mid ∧ caps.mlFrameworkSupported = true))) ∧
    (selectProcessingTier caps conn consent = AnalysisTier.cloud →
      conn.isConnected = true ∧ consent.cloudProcessing = true) ∧
    ((selectProcessingTier caps conn consent = AnalysisTier.full_ml ∨
        selectProcessingTier caps conn consent = AnalysisTier.lightweight_ml) →
      caps.mlFrameworkSupported = true) := by
  obtain ⟨ct, ram, cores, gpu, ml, bs⟩ := caps
  obtain ⟨ic, cty, im⟩ := conn
  obtain ⟨cp, ds⟩ := consent
  cases ct <;> cases ml <;> cases ic <;> cases cty <;> cases im <;>
    cases cp <;> simp [selectProcessingTier]

/-- Witness for C1 at a concrete input: on a mid-tier ML-capable device with
no connectivity, the lightweight_ml rule fires. -/
theorem C1_selectProcessingTier_cascade_witness :
    selectProcessingTier
      { tier := DeviceTier.mid, availableRAM := 4096, cpuCores := 4,
        hasGPU := true, mlFrameworkSupported := true, benchmarkScore := 65 }
      { isConnected := false, connectionType := ConnectionType.offline,
        isMetered := false }
      { cloudProcessing := false, dataSharing := false } =
      AnalysisTier.lightweight_ml :=
  ((C1_selectProcessingTier_cascade
      { tier := DeviceTier.mid, availableRAM := 4096, cpuCores := 4,
        hasGPU := true, mlFrameworkSupported := true, benchmarkScore := 65 }
      { isConnected := false, connectionType := ConnectionType.offline,
        isMetered := false }
      { cloudProcessing := false, dataSharing := false }).2.2.1).mpr
    (by decide)

/-- C3: `getFallbackTier` implements exactly the chain cloud→full_ml,
full_ml→lightweight_ml, lightweight_ml→basic, basic→none, and every tier
reaches basic in at most 3 applications. -/
theorem C3_fallback_chain :
    getFallbackTier AnalysisTier.cloud = some AnalysisTier.full_ml ∧
    getFallbackTier AnalysisTier.full_ml = some AnalysisTier.lightweight_ml ∧
    getFallbackTier AnalysisTier.lightweight_ml = some AnalysisTier.basic ∧
    getFallbackTier AnalysisTier.basic = none ∧
    ∀ t : AnalysisTier, ∃ n : Nat, n ≤ 3 ∧
      fallbackIter n t = some AnalysisTier.basic := by
  refine ⟨rfl, rfl, rfl, rfl, ?_⟩
  intro t
  cases t with
  | basic => exact ⟨0, by decide, rfl⟩
  | lightweight_ml => exact ⟨1, by decide, rfl⟩
  | full_ml => exact ⟨2, by decide, rfl⟩
  | cloud => exact ⟨3, by decide, rfl⟩

/-- C2 (counterexample): starting from a legal `lightweight_ml` config with a
strategy failing at every tier (error 1 at lightweight_ml, error 2 at basic),
the most recent failure is error 2 — the final basic attempt — but
`routeVideoAnalysis` throws an error derived from error 1, the original
failure (source line 169 wraps `error`, not `fallbackError`). -/
theorem C2_counterexample :
    routeVideoAnalysis (ε := Nat) (T := Nat) "video.mp4"
      { selectedTier := AnalysisTier.lightweight_ml
        deviceCapabilities :=
          { tier := DeviceTier.mid, availableRAM := 4096, cpuCores := 4,
            hasGPU := true, mlFrameworkSupported := true, benchmarkScore := 65 }
        hasConnectivity := false
        userConsent := { cloudProcessing := false, dataSharing := false } }
      (fun _ t =>
        match t with
        | AnalysisTier.lightweight_ml => Except.error 1
        | AnalysisTier.basic => Except.error 2
        | _ => Except.error 0) =
      Except.error (RouteError.wrapped 1) ∧
    (fun (_ : String) (t : AnalysisTier) =>
        match t with
        | AnalysisTier.lightweight_ml => Except.error 1
        | AnalysisTier.basic => Except.error 2
        | _ => (Except.error 0 : Except Nat Nat)) "video.mp4"
        AnalysisTier.basic = Except.error 2 ∧
    RouteError.wrapped 1 ≠ RouteError.wrapped 2 ∧
    RouteError.wrapped 1 ≠ RouteError.raw 2 := by
  refine ⟨?_, rfl, by decide, by decide⟩
  rfl

/-- C2 (amended): when the strategy fails at every tier, `routeVideoAnalysis`
always propagates a failure — never a silent empty result — but the error it
throws is the raw error of the final basic attempt only when three tiers were
attempted; when the fallback tier was already basic, or no fallback exists,
it throws an error wrapping the first attempt's failure (not the most recent
one). -/
theorem C2_route_exhausted (ε T : Type) (v : String)
    (config : ProcessingConfig)
    (f : String → AnalysisTier → Except ε T) (err : AnalysisTier → ε)
    (h : ∀ t, f v t = Except.error (err t)) :
    routeVideoAnalysis v config f =
      Except.error (exhaustedError (effectiveTier config) err) := by
  unfold routeVideoAnalysis
  rw [h (effectiveTier config)]
  cases hfb : getFallbackTier (effectiveTier config) with
  | none => simp [exhaustedError, hfb]
  | some fb =>
    by_cases hb : fb = AnalysisTier.basic
    · subst hb
      simp [exhaustedError, hfb, h]
    · simp [exhaustedError, hfb, hb, h]

/-- Witness for C2: with a strategy failing everywhere with error 7 from a
basic-tier config, the router propagates `wrapped 7`. -/
theorem C2_route_exhausted_witness :
    routeVideoAnalysis (ε := Nat) (T := Nat) "video.mp4"
      { selectedTier := AnalysisTier.basic
        deviceCapabilities :=
          { tier := DeviceTier.low, availableRAM := 2048, cpuCores := 2,
            hasGPU := false, mlFrameworkSupported := false,
            benchmarkScore := 30 }
        hasConnectivity := false
        userConsent := { cloudProcessing := false, dataSharing := false } }
      (fun _ _ => Except.error 7) =
      Except.error (RouteError.wrapped 7) :=
  (C2_route_exhausted Nat Nat "video.mp4"
      { selectedTier := AnalysisTier.basic
        deviceCapabilities :=
          { tier := DeviceTier.low, availableRAM := 2048, cpuCores := 2,
            hasGPU := false, mlFrameworkSupported := false,
            benchmarkScore := 30 }
        hasConnectivity := false
        userConsent := { cloudProcessing := false, dataSharing := false } }
      (fun _ _ => Except.error 7) (fun _ => 7) (fun _ => rfl)).trans
    rfl

/-- C4: (i) from a legal `lightweight_ml` config, with a strategy that fails
at lightweight_ml and succeeds at basic, `routeVideoAnalysis` returns the
basic tier's data with `tier = basic` and `fallbackUsed = true`; (ii) in
general, whenever `routeVideoAnalysis` returns a result, the returned tier is
the tier whose strategy call actually produced the returned data. -/
theorem C4_route_fallback_to_basic :
    (∀ (ε T : Type) (v : String) (config : ProcessingConfig)
        (f : String → AnalysisTier → Except ε T) (e : ε) (d : T),
      config.selectedTier = AnalysisTier.lightweight_ml →
      validateProcessingTier AnalysisTier.lightweight_ml config = true →
      f v AnalysisTier.lightweight_ml = Except.error e →
      f v AnalysisTier.basic = Except.ok d →
      routeVideoAnalysis v config f =
        Except.ok
          { data := d, tier := AnalysisTier.basic, processingTime := 0,
            fallbackUsed := true }) ∧
    (∀ (ε T : Type) (v : String) (config : ProcessingConfig)
        (f : String → AnalysisTier → Except ε T) (r : ProcessingResult T),
      routeVideoAnalysis v config f = Except.ok r →
      f v r.tier = Except.ok r.data) := by
  constructor
  · intro ε T v config f e d hsel hval hfail hok
    have ht : effectiveTier config = AnalysisTier.lightweight_ml := by
      simp [effectiveTier, hsel, hval]
    unfold routeVideoAnalysis
    rw [ht, hfail]
    simp [getFallbackTier, hok]
  · intro ε T v config f r h
    unfold routeVideoAnalysis at h
    cases h1 : f v (effectiveTier config) with
    | ok data =>
      simp only [h1, Except.ok.injEq] at h
      subst h
      exact h1
    | error err =>
      simp only [h1] at h
      cases hfb : getFallbackTier (effectiveTier config) with
      | none =>
        simp only [hfb] at h
        exact Except.noConfusion h
      | some fb =>
        simp only [hfb] at h
        cases h2 : f v fb with
        | ok data =>
          simp only [h2, Except.ok.injEq] at h
          subst h
          exact h2
        | error err2 =>
          simp only [h2] at h
          by_cases hbfb : fb = AnalysisTier.basic
          · rw [if_neg (by simp [hbfb])] at h
            exact Except.noConfusion h
          · rw [if_pos hbfb] at h
            cases h3 : f v AnalysisTier.basic with
            | ok data =>
              simp only [h3, Except.ok.injEq] at h
              subst h
              exact h3
            | error err3 =>
              simp only [h3] at h
              exact Except.noConfusion h

/-- Witness for C4: a concrete mid-tier ML-capable config with selected tier
lightweight_ml, a strategy failing there (error 1) and succeeding at basic
(value 42), yields data 42 at tier basic with the fallback flag set. -/
theorem C4_route_fallback_to_basic_witness :
    routeVideoAnalysis (ε := Nat) (T := Nat) "video.mp4"
      { selectedTier := AnalysisTier.lightweight_ml
        deviceCapabilities :=
          { tier := DeviceTier.mid, availableRAM := 4096, cpuCores := 4,
            hasGPU := true, mlFrameworkSupported := true, benchmarkScore := 65 }
        hasConnectivity := false
        userConsent := { cloudProcessing := false, dataSharing := false } }
      (fun _ t =>
        match t with
        | AnalysisTier.lightweight_ml => Except.error 1
        | AnalysisTier.basic => Except.ok 42
        | _ => Except.error 0) =
      Except.ok
        { data := 42, tier := AnalysisTier.basic, processingTime := 0,
          fallbackUsed := true } :=
  C4_route_fallback_to_basic.1 Nat Nat "video.mp4"
    { selectedTier := AnalysisTier.lightweight_ml
      deviceCapabilities :=
        { tier := DeviceTier.mid, availableRAM := 4096, cpuCores := 4,
          hasGPU := true, mlFrameworkSupported := true, benchmarkScore := 65 }
      hasConnectivity := false
      userConsent := { cloudProcessing := false, dataSharing := false } }
    (fun _ t =>
      match t with
      | AnalysisTier.lightweight_ml => Except.error 1
      | AnalysisTier.basic => Except.ok 42
      | _ => Except.error 0)
    1 42 rfl rfl rfl rfl

theorem jsRound_nonneg {q : ℚ} (h : 0 ≤ q) : 0 ≤ jsRound q := by
  unfold jsRound
  exact Int.floor_nonneg.mpr (by linarith)

theorem jsRound_le_100 {q : ℚ} (h : q ≤ 100) : jsRound q ≤ 100 := by
  unfold jsRound
  have hlt : ⌊q + 1 / 2⌋ < 101 := Int.floor_lt.mpr (by push_cast; linarith)
  omega

theorem clampedScore_bounds (k x : ℚ) (hk : 0 ≤ k) :
    0 ≤ jsRound (max 0 (100 - |x| * k)) ∧
      jsRound (max 0 (100 - |x| * k)) ≤ 100 := by
  have h1 : (0 : ℚ) ≤ |x| * k := mul_nonneg (abs_nonneg x) hk
  exact ⟨jsRound_nonneg (le_max_left _ _),
    jsRound_le_100 (max_le (by norm_num) (by linarith))⟩

theorem listVariance_nonneg (l : List ℚ) : 0 ≤ listVariance l := by
  unfold listVariance
  apply div_nonneg
  · apply List.sum_nonneg
    intro x hx
    obtain ⟨y, _, rfl⟩ := List.mem_map.mp hx
    positivity
  · positivity

/-- C5: the four biomechanical metric scores of both analysis strategies are
integers in [0,100] for every input; the overall score is one of the five
letter grades; and the sample biomechanics (elbow 95, wrist 92, shoulder 94,
follow-through 90, body balance 88) give a weighted total of 92.25 ≥ 90 and
hence grade A. -/
theorem C5_metric_bounds :
    (∀ angle : ℚ,
      0 ≤ calculateElbowAlignment angle ∧ calculateElbowAlignment angle ≤ 100) ∧
    (∀ angle : ℚ,
      0 ≤ calculateWristAngle angle ∧ calculateWristAngle angle ≤ 100) ∧
    (∀ a : Option ℚ,
      0 ≤ calculateShoulderSquare a ∧ calculateShoulderSquare a ≤ 100) ∧
    (∀ frames : List (Option ℚ),
      0 ≤ calculateFollowThroughQuality frames ∧
        calculateFollowThroughQuality frames ≤ 100) ∧
    (∀ motion : MotionAnalysisResult,
      (0 ≤ (calculateBiomechanicalMetrics motion).elbowAlignment ∧
        (calculateBiomechanicalMetrics motion).elbowAlignment ≤ 100) ∧
      (0 ≤ (calculateBiomechanicalMetrics motion).wristAngle ∧
        (calculateBiomechanicalMetrics motion).wristAngle ≤ 100) ∧
      (0 ≤ (calculateBiomechanicalMetrics motion).shoulderSquare ∧
        (calculateBiomechanicalMetrics motion).shoulderSquare ≤ 100) ∧
      (0 ≤ (calculateBiomechanicalMetrics motion).followThrough ∧
        (calculateBiomechanicalMetrics motion).followThrough ≤ 100)) ∧
    (∀ b : BiomechanicalAnalysis,
      calculateFormScore b = FormScore.A ∨ calculateFormScore b = FormScore.B ∨
      calculateFormScore b = FormScore.C ∨ calculateFormScore b = FormScore.D ∨
      calculateFormScore b = FormScore.F) ∧
    (calculateFormScoreTotal
        { elbowAlignment := 95, wristAngle := 92, shoulderSquare := 94,
          followThrough := 90, releaseHeight := 8 / 10, bodyBalance := 88 } =
        369 / 4 ∧
      (90 : ℚ) ≤ 369 / 4 ∧
      calculateFormScore
        { elbowAlignment := 95, wristAngle := 92, shoulderSquare := 94,
          followThrough := 90, releaseHeight := 8 / 10, bodyBalance := 88 } =
        FormScore.A) := by
  refine ⟨?_, ?_, ?_, ?_, ?_, ?_, ?_, ?_, ?_⟩
  · intro angle
    simpa [calculateElbowAlignment] using
      clampedScore_bounds (333 / 100) (angle - 90) (by norm_num)
  · intro angle
    simpa [calculateWristAngle] using
      clampedScore_bounds 5 (angle - 0) (by norm_num)
  · intro a
    cases a with
    | none => exact ⟨by norm_num [calculateShoulderSquare],
        by norm_num [calculateShoulderSquare]⟩
    | some x =>
      simpa [calculateShoulderSquare] using clampedScore_bounds 5 x (by norm_num)
  · intro frames
    by_cases h0 : frames.length = 0
    · simp [calculateFollowThroughQuality, h0]
    · by_cases h1 : (frames.filterMap id).length < 2
      · simp [calculateFollowThroughQuality, h0, h1]
      · have hvar : 0 ≤ listVariance (frames.filterMap id) :=
          listVariance_nonneg _
        have hd0 : (0 : ℚ) ≤ min 100 ((frames.length : ℚ) / 5 * 100) :=
          le_min (by norm_num) (by positivity)
        have hd1 : min 100 ((frames.length : ℚ) / 5 * 100) ≤ 100 :=
          min_le_left _ _
        have hc0 : (0 : ℚ) ≤
            max 0 (100 - listVariance (frames.filterMap id) * 500) :=
          le_max_left _ _
        have hc1 : max 0 (100 - listVariance (frames.filterMap id) * 500) ≤
            100 := max_le (by norm_num) (by nlinarith)
        simp only [calculateFollowThroughQuality, h0, if_neg h0, h1, if_neg h1,
          if_false]
        exact ⟨jsRound_nonneg (by linarith), jsRound_le_100 (by linarith)⟩
  · intro motion
    refine ⟨?_, ?_, ?_, ?_⟩
    · simpa [calculateBiomechanicalMetrics] using
        clampedScore_bounds 5 (motion.positioning.elbowAngle - 90) (by norm_num)
    · simpa [calculateBiomechanicalMetrics] using
        clampedScore_bounds 6 motion.positioning.wristAngle (by norm_num)
    · simpa [calculateBiomechanicalMetrics] using
        clampedScore_bounds 4 motion.positioning.shoulderAlignment (by norm_num)
    · simpa [calculateBiomechanicalMetrics] using
        clampedScore_bounds (3 / 10)
          (motion.trajectory.followThroughDuration - 350) (by norm_num)
  · intro b
    unfold calculateFormScore
    dsimp only
    split_ifs <;> simp
  · norm_num [calculateFormScoreTotal]
  · norm_num
  · norm_num [calculateFormScore, calculateFormScoreTotal]

/-- C6 (counterexample): `calculateFollowThroughQuality` returns 0, not the
default 50, on the empty frame list; and for two frames with wrist data it
clamps the consistency term at 0 (code gives 24 on wrist ys 0 and 1), while
the claim's unclamped formula 60%·duration + 40%·(100 − 500·variance) would
give 14. -/
theorem C6_counterexample :
    calculateFollowThroughQuality ([] : List (Option ℚ)) = 0 ∧
    (0 : ℤ) ≠ 50 ∧
    calculateFollowThroughQuality [some 0, some 1] = 24 ∧
    jsRound (min 100 ((2 : ℚ) / 5 * 100) * (6 / 10) +
        (100 - listVariance [0, 1] * 500) * (4 / 10)) = 14 ∧
    (24 : ℤ) ≠ 14 := by
  refine ⟨rfl, by decide, ?_, ?_, by decide⟩
  · norm_num [calculateFollowThroughQuality, listVariance, listMean, jsRound,
      List.filterMap]
  · norm_num [listVariance, listMean, jsRound]

/-- C6 (amended): `calculateFollowThroughQuality` returns 0 on the empty
list; returns the default 50 on a non-empty list with fewer than 2 frames
carrying wrist data; and otherwise returns the rounded weighted combination
of 60% duration score (frame count/5×100 capped at 100) and 40% consistency
score (100 minus 500×variance of wrist y-position, clamped below at 0). -/
theorem C6_followThroughQuality_cases (frames : List (Option ℚ)) :
    (frames = [] → calculateFollowThroughQuality frames = 0) ∧
    (frames ≠ [] → (frames.filterMap id).length < 2 →
      calculateFollowThroughQuality frames = 50) ∧
    (2 ≤ (frames.filterMap id).length →
      calculateFollowThroughQuality frames =
        jsRound (min 100 ((frames.length : ℚ) / 5 * 100) * (6 / 10) +
          max 0 (100 - listVariance (frames.filterMap id) * 500) * (4 / 10))) := by
  refine ⟨?_, ?_, ?_⟩
  · intro h
    subst h
    rfl
  · intro hne hlt
    have h0 : ¬frames.length = 0 := by
      simpa [List.length_eq_zero] using hne
    simp [calculateFollowThroughQuality, h0, hlt]
  · intro hge
    have h0 : ¬frames.length = 0 := by
      intro h
      rw [List.length_eq_zero] at h
      subst h
      simp at hge
    have h1 : ¬(frames.filterMap id).length < 2 := not_lt.mpr hge
    simp [calculateFollowThroughQuality, h0, h1]

/-- Witness for C6 (amended) at the concrete input [some 0, some 1]: the
main weighted-combination branch applies. -/
theorem C6_followThroughQuality_cases_witness :
    calculateFollowThroughQuality [some 0, some 1] =
      jsRound (min 100 (((List.length [some (0 : ℚ), some 1] : Nat) : ℚ) / 5 * 100) * (6 / 10) +
        max 0 (100 - listVariance (List.filterMap id [some 0, some 1]) * 500) *
          (4 / 10)) :=
  (C6_followThroughQuality_cases [some 0, some 1]).2.2 (by decide)

theorem mem_insertBySeverity {a x : FormIssue} {l : List FormIssue} :
    a ∈ insertBySeverity x l ↔ a = x ∨ a ∈ l := by
  induction l with
  | nil => simp [insertBySeverity]
  | cons y ys ih =>
    unfold insertBySeverity
    by_cases h : severityRank x.severity ≤ severityRank y.severity
    · simp [if_pos h]
    · simp only [if_neg h, List.mem_cons, ih]
      tauto

theorem sorted_insertBySeverity {x : FormIssue} {l : List FormIssue}
    (hl : List.Sorted
      (fun a b => severityRank a.severity ≤ severityRank b.severity) l) :
    List.Sorted (fun a b => severityRank a.severity ≤ severityRank b.severity)
      (insertBySeverity x l) := by
  induction l with
  | nil => simp [insertBySeverity]
  | cons y ys ih =>
    rw [List.sorted_cons] at hl
    obtain ⟨hy, hys⟩ := hl
    unfold insertBySeverity
    by_cases h : severityRank x.severity ≤ severityRank y.severity
    · rw [if_pos h, List.sorted_cons]
      refine ⟨?_, ?_⟩
      · intro b hb
        rcases List.mem_cons.mp hb with rfl | hb
        · exact h
        · exact le_trans h (hy b hb)
      · rw [List.sorted_cons]
        exact ⟨hy, hys⟩
    · rw [if_neg h, List.sorted_cons]
      refine ⟨?_, ih hys⟩
      intro b hb
      rcases mem_insertBySeverity.mp hb with rfl | hb
      · exact le_of_not_le h
      · exact hy b hb

theorem sorted_sortBySeverity (l : List FormIssue) :
    List.Sorted (fun a b => severityRank a.severity ≤ severityRank b.severity)
      (sortBySeverity l) := by
  induction l with
  | nil => simp [sortBySeverity]
  | cons x xs ih => exact sorted_insertBySeverity ih

theorem perm_insertBySeverity (x : FormIssue) (l : List FormIssue) :
    List.Perm (insertBySeverity x l) (x :: l) := by
  induction l with
  | nil => exact List.Perm.refl _
  | cons y ys ih =>
    unfold insertBySeverity
    by_cases h : severityRank x.severity ≤ severityRank y.severity
    · rw [if_pos h]
    · rw [if_neg h]
      exact List.Perm.trans (List.Perm.cons y ih) (List.Perm.swap x y ys)

theorem perm_sortBySeverity (l : List FormIssue) :
    List.Perm (sortBySeverity l) l := by
  induction l with
  | nil => exact List.Perm.refl _
  | cons x xs ih =>
    exact List.Perm.trans (perm_insertBySeverity x (sortBySeverity xs))
      (List.Perm.cons x ih)

/-- C7: `detectFormIssuesFromPose` returns at most 3 issues, and the returned
issues are always in non-decreasing severity rank (major before moderate
before minor) — in particular whenever 2 or more issues are returned. -/
theorem C7_issue_cap_and_order (b : BiomechanicalAnalysis) :
    (detectFormIssuesFromPose b).length ≤ 3 ∧
    List.Sorted (fun a c => severityRank a.severity ≤ severityRank c.severity)
      (detectFormIssuesFromPose b) := by
  have hlen : ∀ l : List FormIssue, ((sortBySeverity l).take 3).length ≤ 3 :=
    fun l => by
      rw [List.length_take]
      exact min_le_left _ _
  have hsorted : ∀ l : List FormIssue,
      List.Sorted
        (fun a c => severityRank a.severity ≤ severityRank c.severity)
        ((sortBySeverity l).take 3) :=
    fun l => (sorted_sortBySeverity l).sublist (List.take_sublist 3 _)
  exact ⟨hlen _, hsorted _⟩

theorem recommendations_generateFeedback (r : FormAnalysisResult)
    (tier : AnalysisTier) :
    (generateFeedback r tier).recommendations =
      createRecommendations r.detectedIssues
        (if tier = AnalysisTier.basic then 2 else 3) tier := rfl

theorem length_createRecommendations (issues : List FormIssue)
    (maxCount : Nat) (tier : AnalysisTier) :
    (createRecommendations issues maxCount tier).length ≤ maxCount := by
  unfold createRecommendations
  dsimp only
  rw [List.length_map, List.enum_length, List.length_take]
  exact min_le_left _ _

theorem priority_createRecommendations (issues : List FormIssue)
    (maxCount : Nat) (tier : AnalysisTier) (i : Nat)
    (h : i < (createRecommendations issues maxCount tier).length) :
    ((createRecommendations issues maxCount tier).get ⟨i, h⟩).priority =
      i + 1 := by
  unfold createRecommendations at h ⊢
  dsimp only at h ⊢
  rw [List.get_eq_getElem, List.getElem_map, List.getElem_enum]

theorem issues_createRecommendations (issues : List FormIssue)
    (maxCount : Nat) (tier : AnalysisTier) :
    (createRecommendations issues maxCount tier).map (fun x => x.issue) =
      (sortBySeverity issues).take maxCount := by
  unfold createRecommendations
  dsimp only
  rw [List.map_map]
  exact List.enum_map_snd _

/-- C8: `generateFeedback` returns at most 2 recommendations for the basic
tier and at most 3 for any other tier; the recommendations carry priorities
1..N in order, are sorted by severity (major before moderate before minor),
each recommendation's issue is one of the result's detected issues, and the
selected issues are exactly the top-severity prefix of the (stably)
severity-sorted detected issues — so exactly min(cap, #issues)
recommendations are produced. -/
theorem C8_recommendation_cap (r : FormAnalysisResult) (tier : AnalysisTier) :
    (generateFeedback r AnalysisTier.basic).recommendations.length ≤ 2 ∧
    (tier ≠ AnalysisTier.basic →
      (generateFeedback r tier).recommendations.length ≤ 3) ∧
    (∀ (i : Nat) (h : i < (generateFeedback r tier).recommendations.length),
      ((generateFeedback r tier).recommendations.get ⟨i, h⟩).priority =
        i + 1) ∧
    List.Sorted
      (fun a c => severityRank a.severity ≤ severityRank c.severity)
      ((generateFeedback r tier).recommendations.map (fun x => x.issue)) ∧
    (∀ x ∈ (generateFeedback r tier).recommendations,
      x.issue ∈ r.detectedIssues) ∧
    ((generateFeedback r tier).recommendations.map (fun x => x.issue) =
      (sortBySeverity r.detectedIssues).take
        (if tier = AnalysisTier.basic then 2 else 3)) ∧
    ((generateFeedback r tier).recommendations.length =
      min (if tier = AnalysisTier.basic then 2 else 3)
        r.detectedIssues.length) := by
  refine ⟨?_, ?_, ?_, ?_, ?_, ?_, ?_⟩
  · rw [recommendations_generateFeedback]
    simpa using length_createRecommendations r.detectedIssues 2 _
  · intro hne
    rw [recommendations_generateFeedback]
    have h3 : (if tier = AnalysisTier.basic then 2 else 3) = 3 := if_neg hne
    rw [h3]
    exact length_createRecommendations r.detectedIssues 3 tier
  · intro i h
    exact priority_createRecommendations r.detectedIssues
      (if tier = AnalysisTier.basic then 2 else 3) tier i h
  · rw [recommendations_generateFeedback, issues_createRecommendations]
    exact (sorted_sortBySeverity _).sublist (List.take_sublist _ _)
  · intro x hx
    rw [recommendations_generateFeedback] at hx
    have h1 : x.issue ∈ (createRecommendations r.detectedIssues
        (if tier = AnalysisTier.basic then 2 else 3) tier).map
          (fun y => y.issue) :=
      List.mem_map_of_mem _ hx
    rw [issues_createRecommendations] at h1
    exact (perm_sortBySeverity _).subset ((List.take_sublist _ _).subset h1)
  · rw [recommendations_generateFeedback, issues_createRecommendations]
  · have hmap := issues_createRecommendations r.detectedIssues
      (if tier = AnalysisTier.basic then 2 else 3) tier
    calc (generateFeedback r tier).recommendations.length
        = ((generateFeedback r tier).recommendations.map
            (fun x => x.issue)).length := (List.length_map _ _).symm
      _ = ((sortBySeverity r.detectedIssues).take
            (if tier = AnalysisTier.basic then 2 else 3)).length := by
            rw [recommendations_generateFeedback, hmap]
      _ = min (if tier = AnalysisTier.basic then 2 else 3)
            (sortBySeverity r.detectedIssues).length := List.length_take _ _
      _ = min (if tier = AnalysisTier.basic then 2 else 3)
            r.detectedIssues.length := by
            rw [(perm_sortBySeverity r.detectedIssues).length_eq]

/-- Witness for C8 at a result with four unsorted detected issues (minor,
major, moderate, major) and the non-basic tier full_ml: the cap 3 applies,
the three selected issues are exactly the two majors (in stable input
order) followed by the moderate — the minor issue is dropped — and exactly
min(3, 4) = 3 recommendations are produced. -/
theorem C8_recommendation_cap_witness :
    (generateFeedback sampleAnalysisResult
        AnalysisTier.full_ml).recommendations.length ≤ 3 ∧
    (generateFeedback sampleAnalysisResult
        AnalysisTier.full_ml).recommendations.map (fun x => x.issue) =
      [{ type := FormIssueType.follow_through,
         severity := FormIssueSeverity.major, description := "b",
         recommendedDrills := [] },
       { type := FormIssueType.stance, severity := FormIssueSeverity.major,
         description := "d", recommendedDrills := [] },
       { type := FormIssueType.wrist_angle,
         severity := FormIssueSeverity.moderate, description := "c",
         recommendedDrills := [] }] ∧
    (generateFeedback sampleAnalysisResult
        AnalysisTier.full_ml).recommendations.length = 3 := by
  refine ⟨(C8_recommendation_cap sampleAnalysisResult
      AnalysisTier.full_ml).2.1 (by decide), ?_, ?_⟩
  · exact ((C8_recommendation_cap sampleAnalysisResult
        AnalysisTier.full_ml).2.2.2.2.2.1).trans (by rfl)
  · exact ((C8_recommendation_cap sampleAnalysisResult
        AnalysisTier.full_ml).2.2.2.2.2.2).trans (by rfl)

/-- C9: `analyzeIssueProgress` classifies the severity trend exactly by the
first-half/second-half mean severity-score comparison (major 0, moderate 50,
minor 75; second minus first, >+15 improving, <−15 worsening, else stable);
the 4-session sequence major, major, moderate, minor yields improving and
the reversed sequence yields worsening. -/
theorem C9_severity_trend :
    (∀ (issueType : FormIssueType) (sessions : List ShootingSession)
        (p : IssueProgressPattern),
      analyzeIssueProgress issueType sessions = some p →
      p.severityTrend = trendSpec (issueSeverityScores issueType sessions)) ∧
    (analyzeIssueProgress FormIssueType.elbow_flare
        [mkIssueSession 1 FormIssueSeverity.major,
         mkIssueSession 2 FormIssueSeverity.major,
         mkIssueSession 3 FormIssueSeverity.moderate,
         mkIssueSession 4 FormIssueSeverity.minor]).map
        (fun p => p.severityTrend) = some SeverityTrend.improving ∧
    (analyzeIssueProgress FormIssueType.elbow_flare
        [mkIssueSession 1 FormIssueSeverity.minor,
         mkIssueSession 2 FormIssueSeverity.minor,
         mkIssueSession 3 FormIssueSeverity.moderate,
         mkIssueSession 4 FormIssueSeverity.major]).map
        (fun p => p.severityTrend) = some SeverityTrend.worsening := by
  refine ⟨?_,
    by norm_num [analyzeIssueProgress, issueSeverityScores, mkIssueSession,
      calculateSeverityScore],
    by norm_num [analyzeIssueProgress, issueSeverityScores, mkIssueSession,
      calculateSeverityScore]⟩
  intro issueType sessions p h
  unfold analyzeIssueProgress at h
  dsimp only at h
  by_cases h0 : (sessions.filter (fun s =>
      s.detectedIssues.any (fun i => i.type = issueType))).length = 0
  · rw [if_pos h0] at h
    exact Option.noConfusion h
  · rw [if_neg h0] at h
    injection h with h
    subst h
    rfl

/-- Witness for C9 at a single-occurrence history: the trend of the
returned pattern equals the spec's halves comparison (stable here). -/
theorem C9_severity_trend_witness :
    ({ issueType := FormIssueType.elbow_flare, firstDetected := 1,
       lastDetected := 1, occurrenceCount := 1,
       severityTrend := SeverityTrend.stable, averageSeverityScore := 0,
       resolved := false } : IssueProgressPattern).severityTrend =
      trendSpec (issueSeverityScores FormIssueType.elbow_flare
        [mkIssueSession 1 FormIssueSeverity.major]) :=
  C9_severity_trend.1 FormIssueType.elbow_flare
    [mkIssueSession 1 FormIssueSeverity.major] _
    (by norm_num [analyzeIssueProgress, issueSeverityScores, mkIssueSession,
      calculateSeverityScore])

/-- C10 (counterexample): a cached row aged exactly 7 days is still returned
unchanged by `detectDeviceCapabilities false` — the source treats the cache
as stale only when its age strictly exceeds 7 days — although
now − lastAssessed < 7 days fails there, and full detection would have
produced a different record. -/
theorem C10_counterexample :
    detectDeviceCapabilities false
        (some { capabilities :=
                  { tier := DeviceTier.low, availableRAM := 2048,
                    cpuCores := 2, hasGPU := false,
                    mlFrameworkSupported := false, benchmarkScore := 30 },
                lastAssessed := 0 })
        sevenDaysInMs
        { availableRAM := 4096, cpuCores := 4, hasGPU := true,
          mlFrameworkSupported := true, benchmarkScore := 65 } =
      ({ tier := DeviceTier.low, availableRAM := 2048, cpuCores := 2,
         hasGPU := false, mlFrameworkSupported := false,
         benchmarkScore := 30 },
        some { capabilities :=
                 { tier := DeviceTier.low, availableRAM := 2048, cpuCores := 2,
                   hasGPU := false, mlFrameworkSupported := false,
                   benchmarkScore := 30 },
               lastAssessed := 0 }) ∧
    ¬(sevenDaysInMs - 0 < sevenDaysInMs) ∧
    ({ tier := DeviceTier.low, availableRAM := 2048, cpuCores := 2,
       hasGPU := false, mlFrameworkSupported := false,
       benchmarkScore := 30 } : DeviceCapabilities) ≠
      detectedCapabilities
        { availableRAM := 4096, cpuCores := 4, hasGPU := true,
          mlFrameworkSupported := true, benchmarkScore := 65 } := by
  refine ⟨rfl, by decide, by decide⟩

/-- C10 (amended): with `forceRefresh = false`, a cached record is returned
unchanged (no re-detection, no cache write) if and only if
now − lastAssessed ≤ 7 days; when the record is absent or strictly older
than 7 days, full detection runs and a fresh record stamped `now` is
persisted. -/
theorem C10_cache_staleness (cache : Option CachedCapabilitiesRow) (now : ℤ)
    (signals : DetectionSignals) :
    (∀ row : CachedCapabilitiesRow, cache = some row →
      (now - row.lastAssessed ≤ sevenDaysInMs →
        detectDeviceCapabilities false cache now signals =
          (row.capabilities, cache)) ∧
      (sevenDaysInMs < now - row.lastAssessed →
        detectDeviceCapabilities false cache now signals =
          (detectedCapabilities signals,
            some { capabilities := detectedCapabilities signals,
                   lastAssessed := now }))) ∧
    (cache = none →
      detectDeviceCapabilities false cache now signals =
        (detectedCapabilities signals,
          some { capabilities := detectedCapabilities signals,
                 lastAssessed := now })) := by
  constructor
  · intro row hrow
    subst hrow
    constructor
    · intro hle
      have hnot : ¬(now - row.lastAssessed > sevenDaysInMs) := not_lt.mpr hle
      simp [detectDeviceCapabilities, loadCachedCapabilities, hnot]
    · intro hgt
      simp [detectDeviceCapabilities, loadCachedCapabilities, hgt]
  · intro hnone
    subst hnone
    simp [detectDeviceCapabilities, loadCachedCapabilities]

/-- Witness for C10: a cached row 8 days old (now = 8·24·60·60·1000,
lastAssessed = 0) is treated as absent and full detection runs and
persists a fresh row. -/
theorem C10_cache_staleness_witness :
    detectDeviceCapabilities false
        (some { capabilities :=
                  { tier := DeviceTier.low, availableRAM := 2048,
                    cpuCores := 2, hasGPU := false,
                    mlFrameworkSupported := false, benchmarkScore := 30 },
                lastAssessed := 0 })
        691200000
        { availableRAM := 4096, cpuCores := 4, hasGPU := true,
          mlFrameworkSupported := true, benchmarkScore := 65 } =
      (detectedCapabilities
          { availableRAM := 4096, cpuCores := 4, hasGPU := true,
            mlFrameworkSupported := true, benchmarkScore := 65 },
        some { capabilities :=
                 detectedCapabilities
                   { availableRAM := 4096, cpuCores := 4, hasGPU := true,
                     mlFrameworkSupported := true, benchmarkScore := 65 },
               lastAssessed := 691200000 }) :=
  ((C10_cache_staleness
      (some { capabilities :=
                { tier := DeviceTier.low, availableRAM := 2048, cpuCores := 2,
                  hasGPU := false, mlFrameworkSupported := false,
                  benchmarkScore := 30 },
              lastAssessed := 0 })
      691200000
      { availableRAM := 4096, cpuCores := 4, hasGPU := true,
        mlFrameworkSupported := true, benchmarkScore := 65 }).1
    { capabilities :=
        { tier := DeviceTier.low, availableRAM := 2048, cpuCores := 2,
          hasGPU := false, mlFrameworkSupported := false,
          benchmarkScore := 30 },
      lastAssessed := 0 }
    rfl).2 (by decide)

end CoachAI
